import Mathlib

/-!
# QA Review Website — verification of the review workflow engine

Shallow embedding of the review workflow engine of the Rutabaga QA website:
the data model (`app/models.py`), the review service
(`app/services/review_service.py`), the relevant API routes
(`app/routes/api.py`) and the production reconciler
(`app/services/production_update_service.py`).

Modelling conventions:
* Database tables are Lean lists kept in row-insertion order (insertion
  order is creation order); an SQL query's `.first()` returns the earliest
  matching row of the list.
* JSON dictionaries are association lists in insertion order; Python dict
  assignment is `dictSet` (overwrite in place, else append).
* Python truthiness of optional strings / integer ids is `strTruthy` /
  `natTruthy` (absent, `None`, `""` and `0` are falsy).
* Each service operation runs in one transaction: it returns the new state
  and `true`, or — when a lookup dereferences a missing row
  (`AttributeError` inside the `try`) or the commit violates a constraint
  declared in `models.py` (`UniqueConstraint('response_queue_id',
  'reviewer_id', 'version')` on reviews, `nullable=False` on
  `review_audit_log.review_id`) — rolls back and returns the original
  state and `false`.
-/

namespace RutabagaQA

/-- Python truthiness of an optional string (`None` and `""` are falsy). -/
def strTruthy : Option String → Bool
  | none => false
  | some s => s ≠ ""

/-- Python truthiness of an optional integer id (`None` and `0` are falsy). -/
def natTruthy : Option Nat → Bool
  | none => false
  | some n => n ≠ 0

/-- One entry of a review's `segment_scores` JSON map:
`{segment_id: {score, suggestion}}`. -/
structure SegData where
  score : Option Int
  suggestion : Option String
deriving Repr, DecidableEq

/-- One generated segment of a queue item (`ResponseQueue.segments`
entries `{id, text}`). -/
structure Segment where
  id : String
  text : String
deriving Repr, DecidableEq

/-- A `qa_reviews.response_queue` row. -/
structure QueueItem where
  id : Nat
  intent : String
  slots : List (String × String)
  segments : List Segment
  status : String
deriving Repr, DecidableEq

/-- A `qa_reviews.reviews` row.  `version` defaults to 1 and
`is_current` to `true` on every insert in the source. -/
structure Review where
  id : Nat
  response_queue_id : Nat
  reviewer_id : Nat
  version : Nat
  is_current : Bool
  segment_scores : List (String × SegData)
  overall_notes : Option String
  flag_reason : Option String
  status : String
deriving Repr, DecidableEq

/-- A `qa_reviews.review_audit_log` row.  The column `review_id` is
declared `nullable=False` in `models.py`.  The JSON `changes` payload is
an assoc list of rendered values. -/
structure AuditEntry where
  review_id : Option Nat
  reviewer_id : Nat
  action : String
  previous_status : Option String
  new_status : Option String
  changes : List (String × String)
deriving Repr, DecidableEq

/-- A `qa_reviews.review_sessions` row (per-session counters). -/
structure Session where
  id : Nat
  reviewer_id : Nat
  reviews_completed : Nat
  reviews_flagged : Nat
  reviews_drafted : Nat
  reviews_skipped : Nat
deriving Repr, DecidableEq

/-- A `qa_reviews.reviewers` row (only the counters the workflow touches). -/
structure ReviewerRow where
  id : Nat
  total_reviews_submitted : Nat
  total_reviews_flagged : Nat
  total_drafts_saved : Nat
deriving Repr, DecidableEq

/-- A `qa_reviews.rereview_requests` row. -/
structure RereviewReq where
  response_queue_id : Nat
  original_review_id : Nat
  requested_by : Nat
  reason : String
  status : String
deriving Repr, DecidableEq

/-- A row of a production content table, tagged with its
`schema.table` name; field values as strings. -/
structure ProdRow where
  table : String
  fields : List (String × String)
deriving Repr, DecidableEq

/-- A `qa_reviews.production_updates` row (the reconciler's audit record). -/
structure ProdUpdate where
  review_id : Option Nat
  intent : String
  target_table : String
  original_data : List (String × String)
  updated_data : List (String × String)
  updated_by : Nat
deriving Repr, DecidableEq

/-- The persistent state: every table of the `qa_reviews` schema plus the
production content store, with a sequence counter for review ids. -/
structure DBState where
  items : List QueueItem
  reviews : List Review
  audits : List AuditEntry
  sessions : List Session
  reviewers : List ReviewerRow
  rereviews : List RereviewReq
  prodUpdates : List ProdUpdate
  production : List ProdRow
  nextReviewId : Nat
deriving Repr, DecidableEq

/-- Python dict assignment `d[k] = v` on an insertion-ordered assoc list:
overwrite in place when the key exists, append otherwise. -/
def dictSet (l : List (String × String)) (k v : String) : List (String × String) :=
  if l.any (fun p => p.1 == k) then
    l.map (fun p => if p.1 == k then (k, v) else p)
  else
    l ++ [(k, v)]

/-- Replace the first element satisfying `p` by its image under `f`
(an ORM mutation of the first row returned by a query). -/
def updateFirst : List α → (α → Bool) → (α → α) → List α
  | [], _, _ => []
  | a :: as, p, f => if p a then f a :: as else a :: updateFirst as p f

/-- The column triple of the unique constraint
`UniqueConstraint('response_queue_id', 'reviewer_id', 'version')`. -/
def reviewKey (r : Review) : Nat × Nat × Nat :=
  (r.response_queue_id, r.reviewer_id, r.version)

/-- The declared unique constraint on `qa_reviews.reviews` holds. -/
def uniqueReviewKeys : List Review → Bool
  | [] => true
  | r :: rest => rest.all (fun r2 => reviewKey r2 ≠ reviewKey r) && uniqueReviewKeys rest

/-- The declared `nullable=False` on `review_audit_log.review_id` holds. -/
def auditsNotNull (audits : List AuditEntry) : Bool :=
  audits.all (fun a => a.review_id.isSome)

/-- Commit, as in `db.session.commit()`: the store verifies the declared constraints; on
violation the transaction rolls back to the pre-transaction state. -/
def commit (old new : DBState) : DBState × Bool :=
  if uniqueReviewKeys new.reviews && auditsNotNull new.audits then (new, true)
  else (old, false)

/-- Lookup `db.session.get(ResponseQueue, id)`. -/
def getItem (st : DBState) (id : Nat) : Option QueueItem :=
  st.items.find? (fun it => it.id == id)

/-- Lookup `db.session.get(Review, id)`. -/
def getReview (st : DBState) (id : Nat) : Option Review :=
  st.reviews.find? (fun r => r.id == id)

/-- Lookup `db.session.get(ReviewSession, id)`. -/
def getSession (st : DBState) (id : Nat) : Option Session :=
  st.sessions.find? (fun s => s.id == id)

/-- Lookup `db.session.get(Reviewer, id)`. -/
def getReviewer (st : DBState) (id : Nat) : Option ReviewerRow :=
  st.reviewers.find? (fun r => r.id == id)

namespace ReviewService

/-- Priority-1 filter of `get_next_response`: pending item of this intent
joined with an approved re-review request made by this reviewer. -/
def rereviewPick (st : DBState) (intent : String) (reviewer_id : Nat) (it : QueueItem) : Bool :=
  it.intent == intent && it.status == "pending" &&
    st.rereviews.any (fun rr =>
      rr.response_queue_id == it.id && rr.requested_by == reviewer_id &&
        rr.status == "approved")

/-- Priority-2 filter of `get_next_response`: pending item of this intent
for which no review row exists at all (outer join on `Review.id IS NULL`). -/
def unreviewedPick (st : DBState) (intent : String) (it : QueueItem) : Bool :=
  it.intent == intent && it.status == "pending" &&
    st.reviews.all (fun r => r.response_queue_id != it.id)

/-- Embeds `ReviewService.get_next_response`. -/
def get_next_response (st : DBState) (intent : String) (reviewer_id : Nat) :
    Option QueueItem :=
  match st.items.find? (rereviewPick st intent reviewer_id) with
  | some it => some it
  | none => st.items.find? (unreviewedPick st intent)

/-- Embeds `ReviewService.skip_response`: bump `session.reviews_skipped` when the
session exists, append an audit entry with `review_id=None`, commit. -/
def skip_response (st : DBState) (response_id reviewer_id session_id : Nat) :
    DBState × Bool :=
  let sessions := updateFirst st.sessions (fun s => s.id == session_id)
    (fun s => { s with reviews_skipped := s.reviews_skipped + 1 })
  let audit : AuditEntry :=
    { review_id := none, reviewer_id := reviewer_id, action := "skipped",
      previous_status := none, new_status := none,
      changes := [("response_id", toString response_id)] }
  commit st { st with sessions := sessions, audits := st.audits ++ [audit] }

/-- Embeds `ReviewService.flag_response`: insert a flagged review (version and
currency left at their defaults 1 / true), set the item's status, bump
session and reviewer counters, append an audit entry, commit.  A missing
item or reviewer raises inside the `try` and rolls back. -/
def flag_response (st : DBState) (response_id reviewer_id session_id : Nat)
    (flag_reason : String) (segment_scores : List (String × SegData))
    (overall_notes : Option String) : DBState × Bool :=
  let review : Review :=
    { id := st.nextReviewId, response_queue_id := response_id,
      reviewer_id := reviewer_id, version := 1, is_current := true,
      segment_scores := segment_scores, overall_notes := overall_notes,
      flag_reason := some flag_reason, status := "flagged" }
  if (getItem st response_id).isNone then (st, false)
  else if (getReviewer st reviewer_id).isNone then (st, false)
  else
    let items := updateFirst st.items (fun it => it.id == response_id)
      (fun it => { it with status := "flagged" })
    let sessions := updateFirst st.sessions (fun s => s.id == session_id)
      (fun s => { s with reviews_flagged := s.reviews_flagged + 1 })
    let reviewers := updateFirst st.reviewers (fun r => r.id == reviewer_id)
      (fun r => { r with total_reviews_flagged := r.total_reviews_flagged + 1 })
    let audit : AuditEntry :=
      { review_id := some st.nextReviewId, reviewer_id := reviewer_id,
        action := "flagged", previous_status := some "pending",
        new_status := some "flagged", changes := [("reason", flag_reason)] }
    commit st { st with
      reviews := st.reviews ++ [review], items := items,
      sessions := sessions, reviewers := reviewers,
      audits := st.audits ++ [audit], nextReviewId := st.nextReviewId + 1 }

/-- Embeds `ReviewService.save_draft`: update the existing draft review of this
(item, reviewer) in place when one exists, else insert a fresh draft
review; set the item's status, bump counters, append an audit entry,
commit. -/
def save_draft (st : DBState) (response_id reviewer_id session_id : Nat)
    (segment_scores : List (String × SegData))
    (overall_notes : Option String) : DBState × Bool :=
  let isDraft : Review → Bool := fun r =>
    r.response_queue_id == response_id && r.reviewer_id == reviewer_id &&
      r.status == "draft"
  if (getItem st response_id).isNone then (st, false)
  else if (getReviewer st reviewer_id).isNone then (st, false)
  else
    let items := updateFirst st.items (fun it => it.id == response_id)
      (fun it => { it with status := "draft" })
    let sessions := updateFirst st.sessions (fun s => s.id == session_id)
      (fun s => { s with reviews_drafted := s.reviews_drafted + 1 })
    let reviewers := updateFirst st.reviewers (fun r => r.id == reviewer_id)
      (fun r => { r with total_drafts_saved := r.total_drafts_saved + 1 })
    match st.reviews.find? isDraft with
    | some existing =>
      let reviews := updateFirst st.reviews isDraft
        (fun r => { r with segment_scores := segment_scores,
                           overall_notes := overall_notes })
      let audit : AuditEntry :=
        { review_id := some existing.id, reviewer_id := reviewer_id,
          action := "saved_draft", previous_status := some "pending",
          new_status := some "draft", changes := [] }
      commit st { st with
        reviews := reviews, items := items, sessions := sessions,
        reviewers := reviewers, audits := st.audits ++ [audit] }
    | none =>
      let review : Review :=
        { id := st.nextReviewId, response_queue_id := response_id,
          reviewer_id := reviewer_id, version := 1, is_current := true,
          segment_scores := segment_scores, overall_notes := overall_notes,
          flag_reason := none, status := "draft" }
      let audit : AuditEntry :=
        { review_id := some st.nextReviewId, reviewer_id := reviewer_id,
          action := "saved_draft", previous_status := some "pending",
          new_status := some "draft", changes := [] }
      commit st { st with
        reviews := st.reviews ++ [review], items := items,
        sessions := sessions, reviewers := reviewers,
        audits := st.audits ++ [audit], nextReviewId := st.nextReviewId + 1 }

/-- Embeds `ReviewService.submit_review`: insert a submitted review (version and
currency at their defaults 1 / true), set the item's status, bump
counters, append an audit entry, commit.  The production update is only
logged as pending (`TODO: Update production tables (Phase 5)`): the
production reconciler is never invoked and no `ProductionUpdate` row is
created. -/
def submit_review (st : DBState) (response_id reviewer_id session_id : Nat)
    (segment_scores : List (String × SegData))
    (overall_notes : Option String) : DBState × Bool :=
  let review : Review :=
    { id := st.nextReviewId, response_queue_id := response_id,
      reviewer_id := reviewer_id, version := 1, is_current := true,
      segment_scores := segment_scores, overall_notes := overall_notes,
      flag_reason := none, status := "submitted" }
  if (getItem st response_id).isNone then (st, false)
  else if (getReviewer st reviewer_id).isNone then (st, false)
  else
    let items := updateFirst st.items (fun it => it.id == response_id)
      (fun it => { it with status := "submitted" })
    let sessions := updateFirst st.sessions (fun s => s.id == session_id)
      (fun s => { s with reviews_completed := s.reviews_completed + 1 })
    let reviewers := updateFirst st.reviewers (fun r => r.id == reviewer_id)
      (fun r => { r with total_reviews_submitted := r.total_reviews_submitted + 1 })
    let audit : AuditEntry :=
      { review_id := some st.nextReviewId, reviewer_id := reviewer_id,
        action := "submitted", previous_status := some "pending",
        new_status := some "submitted", changes := [] }
    commit st { st with
      reviews := st.reviews ++ [review], items := items,
      sessions := sessions, reviewers := reviewers,
      audits := st.audits ++ [audit], nextReviewId := st.nextReviewId + 1 }

end ReviewService

namespace Api

/-- Outcome of the `/api/review/flag` route. -/
inductive FlagOutcome where
  | missingData
  | ok
  | failed
deriving Repr, DecidableEq

/-- Route `flag_review` (`POST /api/review/flag`): validate that
`response_id`, `flag_reason` and the session id are all truthy, then call
`ReviewService.flag_response`. -/
def flag_review (st : DBState) (current_user_id : Nat)
    (response_id : Option Nat) (flag_reason : Option String)
    (segment_scores : List (String × SegData)) (overall_notes : Option String)
    (session_id : Option Nat) : DBState × FlagOutcome :=
  if !(natTruthy response_id && strTruthy flag_reason && natTruthy session_id) then
    (st, .missingData)
  else
    let res := ReviewService.flag_response st (response_id.getD 0) current_user_id
      (session_id.getD 0) (flag_reason.getD "") segment_scores overall_notes
    (res.1, if res.2 then .ok else .failed)

/-- Outcome of the `/api/rereview/request` route. -/
inductive RereviewOutcome where
  | missingData
  | notFound
  | notOwner
  | notSubmitted
  | ok
  | serverError
deriving Repr, DecidableEq

/-- Route `request_rereview` (`POST /api/rereview/request`): validate the
payload, look up the review, check ownership (403) and submitted status
(400), then insert an auto-approved rereview request, reset the item to
pending and demote the review's currency. -/
def request_rereview (st : DBState) (current_user_id : Nat)
    (review_id : Option Nat) (reason : Option String) :
    DBState × RereviewOutcome :=
  if !(natTruthy review_id && strTruthy reason) then (st, .missingData)
  else
    match getReview st (review_id.getD 0) with
    | none => (st, .notFound)
    | some review =>
      if review.reviewer_id ≠ current_user_id then (st, .notOwner)
      else if review.status ≠ "submitted" then (st, .notSubmitted)
      else
        match getItem st review.response_queue_id with
        | none => (st, .serverError)
        | some _ =>
          let rr : RereviewReq :=
            { response_queue_id := review.response_queue_id,
              original_review_id := review.id,
              requested_by := current_user_id,
              reason := reason.getD "", status := "approved" }
          let items := updateFirst st.items
            (fun it => it.id == review.response_queue_id)
            (fun it => { it with status := "pending" })
          let reviews := updateFirst st.reviews
            (fun r => r.id == review.id)
            (fun r => { r with is_current := false })
          let res := commit st { st with rereviews := st.rereviews ++ [rr],
                                         items := items, reviews := reviews }
          (res.1, if res.2 then .ok else .serverError)

end Api

namespace ProductionUpdateService

/-- One entry of `INTENT_TABLE_MAPPING`. -/
structure IntentMap where
  schema : String
  table : String
  lookup_fields : List String
  segment_field_mapping : List (String × Option String)
deriving Repr, DecidableEq

/-- Embeds `ProductionUpdateService.INTENT_TABLE_MAPPING`. -/
def INTENT_TABLE_MAPPING : List (String × IntentMap) :=
  [("interaction",
    { schema := "public", table := "document_ddi_pairs",
      lookup_fields := ["subject_drug", "object_drug"],
      segment_field_mapping :=
        [("S1", some "effect_s1"), ("S2", some "guidance"),
         ("S3", some "effect_complete"), ("S4", none)] }),
   ("dosing",
    { schema := "content", table := "drug_dosing",
      lookup_fields := ["drug_id", "indication"],
      segment_field_mapping :=
        [("S1", some "dose_value"), ("S2", some "frequency"),
         ("S3", some "special_considerations"), ("S4", none)] })]

/-- The slot key for a lookup field:
`field.replace('drug_id','drug').replace('subject_drug','drug_a').replace('object_drug','drug_b')`. -/
def slotKey (field : String) : String :=
  ((field.replace "drug_id" "drug").replace "subject_drug" "drug_a").replace
    "object_drug" "drug_b"

/-- Full table name `schema.table`. -/
def fullTableName (m : IntentMap) : String := m.schema ++ "." ++ m.table

/-- Builds `lookup_values[field] = response_queue.slots.get(slot_key)` for each
lookup field. -/
def lookupValues (m : IntentMap) (slots : List (String × String)) :
    List (String × Option String) :=
  m.lookup_fields.map (fun f => (f, slots.lookup (slotKey f)))

/-- SQL row match for `WHERE field = :value AND ...`: a `None` value
(`field = NULL`) never matches. -/
def rowMatches (tbl : String) (lv : List (String × Option String))
    (row : ProdRow) : Bool :=
  row.table == tbl && lv.all (fun fv =>
    match fv.2 with
    | some v => row.fields.lookup fv.1 == some v
    | none => false)

/-- Embeds `ProductionUpdateService._fetch_current_record`, a `SELECT` with `LIMIT 1`:
first matching row. -/
def fetch_current_record (db : List ProdRow) (tbl : String)
    (lv : List (String × Option String)) : Option (List (String × String)) :=
  (db.find? (rowMatches tbl lv)).map (fun r => r.fields)

/-- The pre-image: for each segment-field mapping entry, keep the current
record's value when the target column is truthy and present in the record. -/
def originalFields (m : IntentMap) (rec : List (String × String)) :
    List (String × String) :=
  m.segment_field_mapping.foldl (fun acc sf =>
    match sf.2 with
    | some f =>
      if f == "" then acc
      else match rec.lookup f with
        | some v => dictSet acc f v
        | none => acc
    | none => acc) []

/-- Lookup `mapping['segment_field_mapping'].get(segment_id)` followed by the
`if not db_field: continue` truthiness guard: the result is the mapped
column, or `none` when the segment is unmapped or maps to no column. -/
def segMapGet (m : IntentMap) (segId : String) : Option String :=
  match m.segment_field_mapping.lookup segId with
  | some (some f) => if f == "" then none else some f
  | _ => none

/-- The value staged for one entry of the review's scores map: the
suggestion when truthy, else the item's original stored segment text for
this segment id (nothing when that segment does not exist); `none` when
the segment has no mapped column. -/
def stagedValue (m : IntentMap) (segments : List Segment) (segId : String)
    (seg : SegData) : Option (String × String) :=
  match segMapGet m segId with
  | none => none
  | some f =>
    if strTruthy seg.suggestion then some (f, seg.suggestion.getD "")
    else
      match segments.find? (fun s => s.id == segId) with
      | some s => some (f, s.text)
      | none => none

/-- The `updated_fields` dict built by the staging loop of
`update_production` over the scores map. -/
def buildUpdatedFields (m : IntentMap) (segments : List Segment)
    (scores : List (String × SegData)) : List (String × String) :=
  scores.foldl (fun acc kv =>
    match stagedValue m segments kv.1 kv.2 with
    | some (f, v) => dictSet acc f v
    | none => acc) []

/-- Apply `SET field = :value, ...` to one row (only existing columns). -/
def setFields (fields upd : List (String × String)) : List (String × String) :=
  upd.foldl (fun fs kv =>
    fs.map (fun p => if p.1 == kv.1 then (p.1, kv.2) else p)) fields

/-- Embeds `ProductionUpdateService._execute_update`: conditional `UPDATE` scoped
to the lookup key; reports `true` iff the rowcount is positive. -/
def execute_update (db : List ProdRow) (tbl : String)
    (lv : List (String × Option String)) (upd : List (String × String)) :
    List ProdRow × Bool :=
  let rowcount := db.countP (fun row => rowMatches tbl lv row)
  if rowcount > 0 then
    (db.map (fun row =>
      if rowMatches tbl lv row then { row with fields := setFields row.fields upd }
      else row), true)
  else (db, false)

/-- Embeds `ProductionUpdateService.update_production`: resolve the intent
mapping, fetch the current record, stage updated fields from the scores,
bail out with `none` when nothing is staged, execute the conditional
update, and on success return the `ProductionUpdate` record (its
`review_id` left `None`, to be set by the caller). -/
def update_production (db : List ProdRow) (rq : QueueItem)
    (segment_scores : List (String × SegData)) (reviewer_id : Nat) :
    List ProdRow × Option ProdUpdate :=
  match INTENT_TABLE_MAPPING.lookup rq.intent with
  | none => (db, none)
  | some m =>
    let tbl := fullTableName m
    let lv := lookupValues m rq.slots
    match fetch_current_record db tbl lv with
    | none => (db, none)
    | some rec =>
      let orig := originalFields m rec
      let upd := buildUpdatedFields m rq.segments segment_scores
      if upd.isEmpty then (db, none)
      else
        match execute_update db tbl lv upd with
        | (db2, true) =>
          (db2, some { review_id := none, intent := rq.intent,
                       target_table := tbl, original_data := orig,
                       updated_data := upd, updated_by := reviewer_id })
        | (db2, false) => (db2, none)

end ProductionUpdateService

/-! ## Demonstration data

A concrete store used to instantiate the theorems: one pending
`interaction` item, one reviewer, one open session, and the matching
production row. -/

/-- Scores map `{"S1": {"score": 5, "suggestion": "New text"}}`. -/
def demoScores : List (String × SegData) :=
  [("S1", { score := some 5, suggestion := some "New text" })]

/-- A pending `interaction` queue item. -/
def demoItem : QueueItem :=
  { id := 1, intent := "interaction",
    slots := [("drug_a", "X"), ("drug_b", "Y")],
    segments := [{ id := "S1", text := "orig S1" }], status := "pending" }

/-- Initial store: the item, reviewer 7, open session 3, no reviews. -/
def demoSt : DBState :=
  { items := [demoItem], reviews := [], audits := [],
    sessions := [{ id := 3, reviewer_id := 7, reviews_completed := 0,
                   reviews_flagged := 0, reviews_drafted := 0,
                   reviews_skipped := 0 }],
    reviewers := [{ id := 7, total_reviews_submitted := 0,
                    total_reviews_flagged := 0, total_drafts_saved := 0 }],
    rereviews := [], prodUpdates := [], production := [], nextReviewId := 1 }

/-! ## The is_current invariant (reachable states) -/

/-- The (queue item, reviewer) pair of a review. -/
def reviewPairKey (r : Review) : Nat × Nat := (r.response_queue_id, r.reviewer_id)

/-- The pair together with the version and currency flag: everything the
workflow's in-place review updates leave untouched except currency; we
track pair and version. -/
def trackKey (r : Review) : (Nat × Nat) × Nat := (reviewPairKey r, r.version)

/-- Inductive invariant on the reviews table: every row carries the
default version 1, and no two rows share a (queue item, reviewer) pair. -/
def ReviewRowsOK (l : List Review) : Prop :=
  (∀ r ∈ l, r.version = 1) ∧ (l.map reviewPairKey).Nodup

/-- The claimed invariant: at most one review with `is_current = true`
per (queue item, reviewer) pair. -/
def currentUnique (st : DBState) : Prop :=
  ((st.reviews.filter (fun r => r.is_current)).map reviewPairKey).Nodup

/-- The three ways a workflow operation can leave the reviews table:
rolled back, one fresh default-version row appended under the unique
constraint, or an in-place update preserving pair and version. -/
def ReviewsShape (old new : List Review) : Prop :=
  new = old ∨
  (∃ r, r.version = 1 ∧ new = old ++ [r] ∧ uniqueReviewKeys (old ++ [r]) = true) ∨
  new.map trackKey = old.map trackKey

/-- States reachable from a fresh deployment: review rows are created by
the workflow operations only, while queue items (enqueued by the upstream
generation pipeline), sessions (login) and reviewer rows may pre-exist or
be appended at any point. -/
inductive Reachable : DBState → Prop where
  | init (items : List QueueItem) (sessions : List Session)
      (reviewers : List ReviewerRow) (production : List ProdRow) :
      Reachable { items := items, reviews := [], audits := [],
                  sessions := sessions, reviewers := reviewers,
                  rereviews := [], prodUpdates := [], production := production,
                  nextReviewId := 1 }
  | enqueue (st : DBState) (it : QueueItem) (h : Reachable st) :
      Reachable { st with items := st.items ++ [it] }
  | newSession (st : DBState) (s : Session) (h : Reachable st) :
      Reachable { st with sessions := st.sessions ++ [s] }
  | newReviewer (st : DBState) (r : ReviewerRow) (h : Reachable st) :
      Reachable { st with reviewers := st.reviewers ++ [r] }
  | skip (st : DBState) (a b c : Nat) (h : Reachable st) :
      Reachable (ReviewService.skip_response st a b c).1
  | flag (st : DBState) (a b c : Nat) (reason : String)
      (scores : List (String × SegData)) (notes : Option String)
      (h : Reachable st) :
      Reachable (ReviewService.flag_response st a b c reason scores notes).1
  | draft (st : DBState) (a b c : Nat) (scores : List (String × SegData))
      (notes : Option String) (h : Reachable st) :
      Reachable (ReviewService.save_draft st a b c scores notes).1
  | submit (st : DBState) (a b c : Nat) (scores : List (String × SegData))
      (notes : Option String) (h : Reachable st) :
      Reachable (ReviewService.submit_review st a b c scores notes).1
  | rereview (st : DBState) (uid : Nat) (review_id : Option Nat)
      (reason : Option String) (h : Reachable st) :
      Reachable (Api.request_rereview st uid review_id reason).1

/-- The state after `submit(item 1, reviewer 7, session 3)` on the demo
store. -/
def demoSt1 : DBState :=
  (ReviewService.submit_review demoSt 1 7 3 demoScores none).1

/-- The submitted review present in `demoSt1`. -/
def demoReview1 : Review :=
  { id := 1, response_queue_id := 1, reviewer_id := 7, version := 1,
    is_current := true, segment_scores := demoScores, overall_notes := none,
    flag_reason := none, status := "submitted" }

/-- The state after the reviewer requests a re-review of that submission. -/
def demoSt2 : DBState :=
  (Api.request_rereview demoSt1 7 (some 1) (some "typo")).1

/-- The `interaction` entry of the intent mapping table, for witnesses. -/
def interactionMap : ProductionUpdateService.IntentMap :=
  (ProductionUpdateService.INTENT_TABLE_MAPPING.lookup "interaction").getD
    { schema := "", table := "", lookup_fields := [], segment_field_mapping := [] }

/-- The state after reviewer 7 saves a draft on the demo store. -/
def demoDraftSt : DBState :=
  (ReviewService.save_draft demoSt 1 7 3 demoScores none).1

/-- The draft review present in `demoDraftSt`. -/
def demoDraftReview : Review :=
  { id := 1, response_queue_id := 1, reviewer_id := 7, version := 1,
    is_current := true, segment_scores := demoScores, overall_notes := none,
    flag_reason := none, status := "draft" }

/-! ## Helper lemmas -/

lemma auditsNotNull_append (l : List AuditEntry) (a : AuditEntry) :
    auditsNotNull (l ++ [a]) = (auditsNotNull l && a.review_id.isSome) := by
  simp [auditsNotNull]

lemma skip_response_eq (st : DBState) (a b c : Nat) :
    ReviewService.skip_response st a b c = (st, false) := by
  unfold ReviewService.skip_response commit
  simp [auditsNotNull_append]

/-- C1: the claim states that every successful submit invokes the
Production Reconciler and attaches the produced `ProductionUpdate` to the
submitted review.  In the source, `submit_review` only logs
`Production update pending implementation` (`TODO: Update production
tables (Phase 5)`): no submit ever touches the production-update log or
the production store, so no `ProductionUpdate` record can exist after a
submit that did not exist before. -/
theorem submit_never_invokes_reconciler (st : DBState) (a b c : Nat)
    (scores : List (String × SegData)) (notes : Option String) :
    (ReviewService.submit_review st a b c scores notes).1.prodUpdates =
      st.prodUpdates ∧
    (ReviewService.submit_review st a b c scores notes).1.production =
      st.production := by
  unfold ReviewService.submit_review commit
  dsimp only
  split
  · exact ⟨rfl, rfl⟩
  · split
    · exact ⟨rfl, rfl⟩
    · split
      · exact ⟨rfl, rfl⟩
      · exact ⟨rfl, rfl⟩

namespace ProductionUpdateService

lemma stagedValue_of_truthy (m : IntentMap) (segments : List Segment)
    (segId : String) (seg : SegData) (f s : String)
    (hmap : segMapGet m segId = some f) (hsug : seg.suggestion = some s)
    (hne : s ≠ "") :
    stagedValue m segments segId seg = some (f, s) := by
  have ht : strTruthy (some s) = true := by simpa [strTruthy] using hne
  simp [stagedValue, hmap, hsug, ht]

lemma stagedValue_of_falsy (m : IntentMap) (segments : List Segment)
    (segId : String) (seg : SegData) (f : String)
    (hmap : segMapGet m segId = some f)
    (hsug : strTruthy seg.suggestion = false) :
    stagedValue m segments segId seg =
      (segments.find? (fun s => s.id == segId)).map (fun s => (f, s.text)) := by
  simp only [stagedValue, hmap, hsug, Bool.false_eq_true, if_false]
  cases segments.find? (fun s => s.id == segId) <;> rfl

lemma stagedValue_of_unmapped (m : IntentMap) (segments : List Segment)
    (segId : String) (seg : SegData) (hmap : segMapGet m segId = none) :
    stagedValue m segments segId seg = none := by
  unfold stagedValue
  rw [hmap]

lemma update_production_of_empty_staging (db : List ProdRow) (rq : QueueItem)
    (scores : List (String × SegData)) (rid : Nat) (m : IntentMap)
    (hm : INTENT_TABLE_MAPPING.lookup rq.intent = some m)
    (hempty : buildUpdatedFields m rq.segments scores = []) :
    update_production db rq scores rid = (db, none) := by
  unfold update_production
  rw [hm]
  dsimp only
  cases hfetch : fetch_current_record db (fullTableName m) (lookupValues m rq.slots) with
  | none => rfl
  | some rec => rw [hempty]; rfl

lemma execute_update_of_no_match (db : List ProdRow) (tbl : String)
    (lv : List (String × Option String)) (upd : List (String × String))
    (h : db.countP (fun row => rowMatches tbl lv row) = 0) :
    execute_update db tbl lv upd = (db, false) := by
  unfold execute_update
  rw [h]
  rfl

lemma update_production_of_no_match (db : List ProdRow) (rq : QueueItem)
    (scores : List (String × SegData)) (rid : Nat) (m : IntentMap)
    (hm : INTENT_TABLE_MAPPING.lookup rq.intent = some m)
    (h : db.countP
      (fun row => rowMatches (fullTableName m) (lookupValues m rq.slots) row) = 0) :
    update_production db rq scores rid = (db, none) := by
  unfold update_production
  rw [hm]
  dsimp only
  have hfetch : fetch_current_record db (fullTableName m) (lookupValues m rq.slots) = none := by
    unfold fetch_current_record
    have : db.find? (rowMatches (fullTableName m) (lookupValues m rq.slots)) = none := by
      rw [List.find?_eq_none]
      intro x hx
      have := List.countP_eq_zero.mp h x hx
      simpa using this
    rw [this]
    rfl
  rw [hfetch]

end ProductionUpdateService

namespace Api

lemma flag_review_of_falsy_reason (st : DBState) (uid : Nat)
    (response_id : Option Nat) (reason : Option String)
    (scores : List (String × SegData)) (notes : Option String)
    (session_id : Option Nat) (h : strTruthy reason = false) :
    flag_review st uid response_id reason scores notes session_id =
      (st, .missingData) := by
  unfold flag_review
  rw [if_pos]
  simp [h]

lemma request_rereview_not_owner (st : DBState) (uid rid : Nat)
    (reason : String) (review : Review) (hrid : rid ≠ 0) (hre : reason ≠ "")
    (hfind : getReview st rid = some review)
    (hown : review.reviewer_id ≠ uid) :
    request_rereview st uid (some rid) (some reason) = (st, .notOwner) := by
  unfold request_rereview
  rw [if_neg (by simp [natTruthy, strTruthy, hrid, hre])]
  simp only [Option.getD_some, hfind]
  rw [if_pos hown]

lemma request_rereview_not_submitted (st : DBState) (uid rid : Nat)
    (reason : String) (review : Review) (hrid : rid ≠ 0) (hre : reason ≠ "")
    (hfind : getReview st rid = some review)
    (hown : review.reviewer_id = uid) (hstat : review.status ≠ "submitted") :
    request_rereview st uid (some rid) (some reason) = (st, .notSubmitted) := by
  unfold request_rereview
  rw [if_neg (by simp [natTruthy, strTruthy, hrid, hre])]
  simp only [Option.getD_some, hfind]
  rw [if_neg (by simp [hown]), if_pos hstat]

end Api

/-- The first row a query returns: decompose `find?` success into a prefix
of non-matching rows followed by the match. -/
lemma find?_first_match {α : Type} {p : α → Bool} :
    ∀ {l : List α} {a : α}, l.find? p = some a →
      p a = true ∧ ∃ l₁ l₂, l = l₁ ++ a :: l₂ ∧ ∀ x ∈ l₁, p x = false := by
  intro l
  induction l with
  | nil => intro a h; simp at h
  | cons b bs ih =>
    intro a h
    by_cases hb : p b = true
    · rw [List.find?_cons_of_pos _ hb] at h
      cases h
      exact ⟨hb, [], bs, rfl, by simp⟩
    · rw [List.find?_cons_of_neg _ hb] at h
      obtain ⟨hpa, l₁, l₂, hsplit, hpre⟩ := ih h
      refine ⟨hpa, b :: l₁, l₂, by rw [hsplit]; rfl, ?_⟩
      intro x hx
      rcases List.mem_cons.mp hx with hx | hx
      · subst hx; simpa using hb
      · exact hpre x hx

namespace ReviewService

lemma rereviewPick_status {st : DBState} {intent : String} {uid : Nat}
    {it : QueueItem} (h : rereviewPick st intent uid it = true) :
    it.status = "pending" := by
  have := (Bool.and_eq_true _ _).mp ((Bool.and_eq_true _ _).mp h).1
  simpa using this.2

lemma unreviewedPick_status {st : DBState} {intent : String}
    {it : QueueItem} (h : unreviewedPick st intent it = true) :
    it.status = "pending" := by
  have := (Bool.and_eq_true _ _).mp ((Bool.and_eq_true _ _).mp h).1
  simpa using this.2

/-- Characterization of `get_next_response` on success: the returned item
is the earliest (creation-order) item passing the priority-1 re-review
filter; or, when no item passes it, the earliest item passing the
priority-2 never-reviewed filter. -/
lemma get_next_response_some {st : DBState} {intent : String} {uid : Nat}
    {it : QueueItem} (h : get_next_response st intent uid = some it) :
    (rereviewPick st intent uid it = true ∧
      ∃ l₁ l₂, st.items = l₁ ++ it :: l₂ ∧
        ∀ x ∈ l₁, rereviewPick st intent uid x = false) ∨
    ((∀ x ∈ st.items, rereviewPick st intent uid x = false) ∧
      unreviewedPick st intent it = true ∧
      ∃ l₁ l₂, st.items = l₁ ++ it :: l₂ ∧
        ∀ x ∈ l₁, unreviewedPick st intent x = false) := by
  unfold get_next_response at h
  cases h1 : st.items.find? (rereviewPick st intent uid) with
  | some it' =>
    rw [h1] at h
    cases h
    obtain ⟨hp, l₁, l₂, hsplit, hpre⟩ := find?_first_match h1
    exact Or.inl ⟨hp, l₁, l₂, hsplit, hpre⟩
  | none =>
    rw [h1] at h
    obtain ⟨hp, l₁, l₂, hsplit, hpre⟩ := find?_first_match h
    refine Or.inr ⟨?_, hp, l₁, l₂, hsplit, hpre⟩
    intro x hx
    exact Bool.eq_false_iff.mpr (fun hc =>
      (List.find?_eq_none.mp h1 x hx) hc)

/-- Characterization of `get_next_response` returning nothing: the queue
is exhausted for this intent (no pending re-review pick, no pending
never-reviewed pick). -/
lemma get_next_response_none {st : DBState} {intent : String} {uid : Nat} :
    get_next_response st intent uid = none ↔
      ∀ x ∈ st.items, rereviewPick st intent uid x = false ∧
        unreviewedPick st intent x = false := by
  unfold get_next_response
  constructor
  · intro h
    cases h1 : st.items.find? (rereviewPick st intent uid) with
    | some it' => rw [h1] at h; exact absurd h (by simp)
    | none =>
      rw [h1] at h
      intro x hx
      exact ⟨Bool.eq_false_iff.mpr (fun hc => (List.find?_eq_none.mp h1 x hx) hc),
             Bool.eq_false_iff.mpr (fun hc => (List.find?_eq_none.mp h x hx) hc)⟩
  · intro h
    have h1 : st.items.find? (rereviewPick st intent uid) = none := by
      rw [List.find?_eq_none]
      intro x hx
      simp [(h x hx).1]
    rw [h1, List.find?_eq_none]
    intro x hx
    simp [(h x hx).2]

end ReviewService

lemma uniqueReviewKeys_append {l : List Review} {x : Review}
    (h : uniqueReviewKeys (l ++ [x]) = true) :
    ∀ r ∈ l, reviewKey r ≠ reviewKey x := by
  induction l with
  | nil => simp
  | cons b bs ih =>
    rw [List.cons_append] at h
    unfold uniqueReviewKeys at h
    obtain ⟨hall, hrest⟩ := (Bool.and_eq_true _ _).mp h
    intro r hr
    rcases List.mem_cons.mp hr with hr | hr
    · subst hr
      have := (List.all_eq_true.mp hall) x (by simp)
      intro hc
      rw [hc] at this
      simp at this
    · exact ih hrest r hr

lemma rowsOK_append {l : List Review} {x : Review} (hok : ReviewRowsOK l)
    (hv : x.version = 1) (hu : uniqueReviewKeys (l ++ [x]) = true) :
    ReviewRowsOK (l ++ [x]) := by
  obtain ⟨hver, hnd⟩ := hok
  constructor
  · intro r hr
    rcases List.mem_append.mp hr with hr | hr
    · exact hver r hr
    · rw [List.mem_singleton.mp hr]; exact hv
  · rw [List.map_append, List.map_singleton]
    rw [List.nodup_append]
    refine ⟨hnd, List.nodup_singleton _, ?_⟩
    intro k hk hk'
    rw [List.mem_singleton] at hk'
    subst hk'
    obtain ⟨r, hr, hkey⟩ := List.mem_map.mp hk
    have hne := uniqueReviewKeys_append hu r hr
    apply hne
    have h1 : r.version = 1 := hver r hr
    unfold reviewKey
    unfold reviewPairKey at hkey
    rw [h1, hv]
    rw [Prod.mk.injEq] at hkey
    rw [hkey.1, hkey.2]

lemma updateFirst_map_eq {α β : Type} (g : α → β) (p : α → Bool) (f : α → α)
    (hg : ∀ a, g (f a) = g a) :
    ∀ l : List α, (updateFirst l p f).map g = l.map g := by
  intro l
  induction l with
  | nil => rfl
  | cons b bs ih =>
    unfold updateFirst
    by_cases hb : p b = true
    · rw [if_pos hb]
      simp [hg b]
    · rw [if_neg hb]
      simp [ih]

lemma rowsOK_of_trackKey_eq {l l' : List Review}
    (hmap : l'.map trackKey = l.map trackKey) (hok : ReviewRowsOK l) :
    ReviewRowsOK l' := by
  obtain ⟨hver, hnd⟩ := hok
  constructor
  · intro r hr
    have : trackKey r ∈ l.map trackKey := by
      rw [← hmap]
      exact List.mem_map_of_mem _ hr
    obtain ⟨r₀, hr₀, hkey⟩ := List.mem_map.mp this
    have : r₀.version = r.version := congrArg Prod.snd hkey
    rw [← this]
    exact hver r₀ hr₀
  · have : l'.map reviewPairKey = l.map reviewPairKey := by
      have h1 : l'.map (Prod.fst ∘ trackKey) = l.map (Prod.fst ∘ trackKey) := by
        rw [← List.map_map, ← List.map_map, hmap]
      simpa [Function.comp, trackKey] using h1
    rw [this]
    exact hnd

lemma rowsOK_of_shape {old new : List Review} (hs : ReviewsShape old new)
    (hok : ReviewRowsOK old) : ReviewRowsOK new := by
  rcases hs with h | ⟨r, hv, hnew, hu⟩ | h
  · rw [h]; exact hok
  · rw [hnew]; exact rowsOK_append hok hv hu
  · exact rowsOK_of_trackKey_eq h hok

lemma commit_shape (old new : DBState) :
    (commit old new).1 = old ∨
      ((commit old new).1 = new ∧ uniqueReviewKeys new.reviews = true) := by
  unfold commit
  split
  case isTrue h => exact Or.inr ⟨rfl, ((Bool.and_eq_true _ _).mp h).1⟩
  case isFalse => exact Or.inl rfl

lemma skip_shape (st : DBState) (a b c : Nat) :
    ReviewsShape st.reviews (ReviewService.skip_response st a b c).1.reviews := by
  rw [skip_response_eq]
  exact Or.inl rfl

lemma flag_shape (st : DBState) (a b c : Nat) (reason : String)
    (scores : List (String × SegData)) (notes : Option String) :
    ReviewsShape st.reviews
      (ReviewService.flag_response st a b c reason scores notes).1.reviews := by
  unfold ReviewService.flag_response
  dsimp only
  split
  · exact Or.inl rfl
  · split
    · exact Or.inl rfl
    · rcases commit_shape st _ with h | ⟨h, hu⟩
      · rw [h]; exact Or.inl rfl
      · rw [h]
        exact Or.inr (Or.inl ⟨_, rfl, rfl, hu⟩)

lemma submit_shape (st : DBState) (a b c : Nat)
    (scores : List (String × SegData)) (notes : Option String) :
    ReviewsShape st.reviews
      (ReviewService.submit_review st a b c scores notes).1.reviews := by
  unfold ReviewService.submit_review
  dsimp only
  split
  · exact Or.inl rfl
  · split
    · exact Or.inl rfl
    · rcases commit_shape st _ with h | ⟨h, hu⟩
      · rw [h]; exact Or.inl rfl
      · rw [h]
        exact Or.inr (Or.inl ⟨_, rfl, rfl, hu⟩)

lemma draft_shape (st : DBState) (a b c : Nat)
    (scores : List (String × SegData)) (notes : Option String) :
    ReviewsShape st.reviews
      (ReviewService.save_draft st a b c scores notes).1.reviews := by
  unfold ReviewService.save_draft
  dsimp only
  split
  · exact Or.inl rfl
  · split
    · exact Or.inl rfl
    · split
      · rcases commit_shape st _ with h | ⟨h, hu⟩
        · rw [h]; exact Or.inl rfl
        · rw [h]
          refine Or.inr (Or.inr ?_)
          apply updateFirst_map_eq
          intro r
          rfl
      · rcases commit_shape st _ with h | ⟨h, hu⟩
        · rw [h]; exact Or.inl rfl
        · rw [h]
          exact Or.inr (Or.inl ⟨_, rfl, rfl, hu⟩)

lemma rereview_shape (st : DBState) (uid : Nat) (review_id : Option Nat)
    (reason : Option String) :
    ReviewsShape st.reviews
      (Api.request_rereview st uid review_id reason).1.reviews := by
  unfold Api.request_rereview
  dsimp only
  split
  · exact Or.inl rfl
  · split
    · exact Or.inl rfl
    · split
      · exact Or.inl rfl
      · split
        · exact Or.inl rfl
        · split
          · exact Or.inl rfl
          · rcases commit_shape st _ with h | ⟨h, hu⟩
            · rw [h]; exact Or.inl rfl
            · rw [h]
              refine Or.inr (Or.inr ?_)
              apply updateFirst_map_eq
              intro r
              rfl

lemma reachable_rowsOK {st : DBState} (h : Reachable st) :
    ReviewRowsOK st.reviews := by
  induction h with
  | init items sessions reviewers production =>
    exact ⟨by simp, by simp⟩
  | enqueue st it h ih => exact ih
  | newSession st s h ih => exact ih
  | newReviewer st r h ih => exact ih
  | skip st a b c h ih =>
    exact rowsOK_of_shape (skip_shape st a b c) ih
  | flag st a b c reason scores notes h ih =>
    exact rowsOK_of_shape (flag_shape st a b c reason scores notes) ih
  | draft st a b c scores notes h ih =>
    exact rowsOK_of_shape (draft_shape st a b c scores notes) ih
  | submit st a b c scores notes h ih =>
    exact rowsOK_of_shape (submit_shape st a b c scores notes) ih
  | rereview st uid review_id reason h ih =>
    exact rowsOK_of_shape (rereview_shape st uid review_id reason) ih

lemma currentUnique_of_rowsOK {st : DBState} (h : ReviewRowsOK st.reviews) :
    currentUnique st := by
  have hsub : List.Sublist
      ((st.reviews.filter (fun r => r.is_current)).map reviewPairKey)
      (st.reviews.map reviewPairKey) :=
    (List.filter_sublist _).map _
  exact h.2.sublist hsub

/-! ## Claim theorems -/

/-- C2: the claim states that a re-review causes the next review by the
same reviewer for the same item to carry a new higher version while the
prior current review is demoted.  In the source no operation ever assigns
a version other than the default 1: after submit and an approved
re-review (which does demote the prior review and reset the item to
pending), the reviewer's next submit inserts another `(item 1, reviewer
7, version 1)` row, violates the declared unique constraint, rolls back
and reports failure — no higher-versioned review is ever created. -/
theorem resubmit_after_rereview_fails :
    (ReviewService.submit_review demoSt 1 7 3 demoScores none).2 = true ∧
    demoSt1.reviews.map (fun r => (r.version, r.is_current, r.status)) =
      [(1, true, "submitted")] ∧
    (Api.request_rereview demoSt1 7 (some 1) (some "typo")).2 =
      Api.RereviewOutcome.ok ∧
    demoSt2.items.map QueueItem.status = ["pending"] ∧
    demoSt2.reviews.map (fun r => (r.version, r.is_current)) = [(1, false)] ∧
    ReviewService.submit_review demoSt2 1 7 3 demoScores none =
      (demoSt2, false) := by
  decide

/-- C3: at every reachable state, at most one review has
`is_current = true` per (queue item, reviewer) pair; every workflow
operation (skip, save draft, flag, submit, re-review request) preserves
this, as does enqueueing items and adding sessions or reviewers. -/
theorem current_review_unique_invariant (st : DBState)
    (h : Reachable st) : currentUnique st :=
  currentUnique_of_rowsOK (reachable_rowsOK h)

/-- Witness for C3 at the concrete store after a submit. -/
theorem current_review_unique_invariant_witness :
    currentUnique (ReviewService.submit_review demoSt 1 7 3 demoScores none).1 :=
  current_review_unique_invariant _
    (Reachable.submit demoSt 1 7 3 demoScores none
      (Reachable.init [demoItem] _ _ []))

/-- C4: the claim states that skip increments the session's skipped
counter, appends one audit entry with no review reference, and succeeds
unless the persistence layer fails.  In the source the audit row is
inserted with `review_id=None` while `models.py` declares
`review_audit_log.review_id` as `nullable=False`, so the commit always
violates the constraint: every skip rolls back all its mutations and
reports failure. -/
theorem skip_always_fails_without_mutation (st : DBState) (a b c : Nat) :
    ReviewService.skip_response st a b c = (st, false) :=
  skip_response_eq st a b c

/-- C5: `get_next_response` returns a pending item only (never draft,
flagged, or submitted); the item is the earliest-created pending item of
the intent with an approved re-review request by this reviewer, or — when
no such item exists — the earliest-created pending item of the intent
with no review at all; and the result is `none` exactly when the queue is
exhausted for this intent. -/
theorem next_response_correct (st : DBState) (intent : String) (uid : Nat) :
    (∀ it, ReviewService.get_next_response st intent uid = some it →
      (it.status = "pending" ∧ it.status ≠ "draft" ∧ it.status ≠ "flagged" ∧
        it.status ≠ "submitted") ∧
      ((ReviewService.rereviewPick st intent uid it = true ∧
          ∃ l₁ l₂, st.items = l₁ ++ it :: l₂ ∧
            ∀ x ∈ l₁, ReviewService.rereviewPick st intent uid x = false) ∨
        ((∀ x ∈ st.items, ReviewService.rereviewPick st intent uid x = false) ∧
          ReviewService.unreviewedPick st intent it = true ∧
          ∃ l₁ l₂, st.items = l₁ ++ it :: l₂ ∧
            ∀ x ∈ l₁, ReviewService.unreviewedPick st intent x = false))) ∧
    (ReviewService.get_next_response st intent uid = none ↔
      ∀ x ∈ st.items, ReviewService.rereviewPick st intent uid x = false ∧
        ReviewService.unreviewedPick st intent x = false) := by
  constructor
  · intro it h
    have hd := ReviewService.get_next_response_some h
    have hstat : it.status = "pending" := by
      rcases hd with ⟨hp, _⟩ | ⟨_, hp, _⟩
      · exact ReviewService.rereviewPick_status hp
      · exact ReviewService.unreviewedPick_status hp
    refine ⟨⟨hstat, ?_, ?_, ?_⟩, hd⟩ <;> rw [hstat] <;> decide
  · exact ReviewService.get_next_response_none

/-- Witness for C5 at the demo store: the single never-reviewed pending
item is returned and is pending. -/
theorem next_response_correct_witness :
    demoItem.status = "pending" ∧ demoItem.status ≠ "submitted" :=
  have h := ((next_response_correct demoSt "interaction" 7).1 demoItem
    (by decide)).1
  ⟨h.1, h.2.2.2⟩

/-- C6: during reconciliation, a segment with a truthy suggestion stages
the suggestion for its mapped column; a segment without one stages the
item's original stored segment text for that segment id (nothing when no
such segment exists); segments mapped to no column are skipped; and when
nothing is staged, `update_production` returns `none` and leaves the
production store untouched. -/
theorem reconcile_staging_correct :
    (∀ (m : ProductionUpdateService.IntentMap) (segments : List Segment)
        (segId : String) (seg : SegData) (f s : String),
      ProductionUpdateService.segMapGet m segId = some f →
      seg.suggestion = some s → s ≠ "" →
      ProductionUpdateService.stagedValue m segments segId seg = some (f, s)) ∧
    (∀ (m : ProductionUpdateService.IntentMap) (segments : List Segment)
        (segId : String) (seg : SegData) (f : String),
      ProductionUpdateService.segMapGet m segId = some f →
      strTruthy seg.suggestion = false →
      ProductionUpdateService.stagedValue m segments segId seg =
        (segments.find? (fun sg => sg.id == segId)).map (fun sg => (f, sg.text))) ∧
    (∀ (m : ProductionUpdateService.IntentMap) (segments : List Segment)
        (segId : String) (seg : SegData),
      ProductionUpdateService.segMapGet m segId = none →
      ProductionUpdateService.stagedValue m segments segId seg = none) ∧
    (∀ (db : List ProdRow) (rq : QueueItem)
        (scores : List (String × SegData)) (rid : Nat)
        (m : ProductionUpdateService.IntentMap),
      ProductionUpdateService.INTENT_TABLE_MAPPING.lookup rq.intent = some m →
      ProductionUpdateService.buildUpdatedFields m rq.segments scores = [] →
      ProductionUpdateService.update_production db rq scores rid = (db, none)) :=
  ⟨fun m segments segId seg f s hm hs hne =>
      ProductionUpdateService.stagedValue_of_truthy m segments segId seg f s hm hs hne,
   fun m segments segId seg f hm hs =>
      ProductionUpdateService.stagedValue_of_falsy m segments segId seg f hm hs,
   fun m segments segId seg hm =>
      ProductionUpdateService.stagedValue_of_unmapped m segments segId seg hm,
   fun db rq scores rid m hm he =>
      ProductionUpdateService.update_production_of_empty_staging db rq scores rid m hm he⟩

/-- Witness for C6 on the `interaction` mapping: a suggestion is staged
for `effect_s1`; without a suggestion the original S1 text is staged; S4
(mapped to no column) stages nothing; and an empty scores map makes
`update_production` a no-op. -/
theorem reconcile_staging_correct_witness :
    ProductionUpdateService.stagedValue interactionMap demoItem.segments "S1"
        { score := some 5, suggestion := some "New text" } =
      some ("effect_s1", "New text") ∧
    ProductionUpdateService.stagedValue interactionMap demoItem.segments "S1"
        { score := some 5, suggestion := none } =
      some ("effect_s1", "orig S1") ∧
    ProductionUpdateService.stagedValue interactionMap demoItem.segments "S4"
        { score := some 5, suggestion := some "Z" } = none ∧
    ProductionUpdateService.update_production [] demoItem [] 7 = ([], none) :=
  ⟨reconcile_staging_correct.1 interactionMap demoItem.segments "S1"
      { score := some 5, suggestion := some "New text" } "effect_s1" "New text"
      (by decide) rfl (by decide),
   by
    have h := reconcile_staging_correct.2.1 interactionMap demoItem.segments "S1"
      { score := some 5, suggestion := none } "effect_s1" (by decide) rfl
    rw [h]; decide,
   reconcile_staging_correct.2.2.1 interactionMap demoItem.segments "S4"
      { score := some 5, suggestion := some "Z" } (by decide),
   reconcile_staging_correct.2.2.2 [] demoItem [] 7 interactionMap
      (by decide) rfl⟩

/-- C7: a conditional `UPDATE` that matches zero rows at write time makes
`_execute_update` report failure with the store untouched, and
`update_production` then produces no `ProductionUpdate` record — it never
silently reports success. -/
theorem conditional_update_reports_failure :
    (∀ (db : List ProdRow) (tbl : String) (lv : List (String × Option String))
        (upd : List (String × String)),
      db.countP (fun row => ProductionUpdateService.rowMatches tbl lv row) = 0 →
      ProductionUpdateService.execute_update db tbl lv upd = (db, false)) ∧
    (∀ (db : List ProdRow) (rq : QueueItem)
        (scores : List (String × SegData)) (rid : Nat)
        (m : ProductionUpdateService.IntentMap),
      ProductionUpdateService.INTENT_TABLE_MAPPING.lookup rq.intent = some m →
      db.countP (fun row => ProductionUpdateService.rowMatches
        (ProductionUpdateService.fullTableName m)
        (ProductionUpdateService.lookupValues m rq.slots) row) = 0 →
      ProductionUpdateService.update_production db rq scores rid = (db, none)) :=
  ⟨fun db tbl lv upd h =>
      ProductionUpdateService.execute_update_of_no_match db tbl lv upd h,
   fun db rq scores rid m hm h =>
      ProductionUpdateService.update_production_of_no_match db rq scores rid m hm h⟩

/-- Witness for C7 on an empty production store. -/
theorem conditional_update_reports_failure_witness :
    ProductionUpdateService.execute_update []
        "public.document_ddi_pairs" [("subject_drug", some "X")] [] =
      ([], false) ∧
    ProductionUpdateService.update_production [] demoItem demoScores 7 =
      ([], none) :=
  ⟨conditional_update_reports_failure.1 []
      "public.document_ddi_pairs" [("subject_drug", some "X")] [] rfl,
   conditional_update_reports_failure.2 [] demoItem demoScores 7
      interactionMap (by decide) rfl⟩

/-- C8: a flag request with an empty or missing reason is rejected by the
route's validation with no service call: the store is returned unchanged
and the outcome is the missing-data error. -/
theorem flag_empty_reason_rejected (st : DBState) (uid : Nat)
    (response_id : Option Nat) (reason : Option String)
    (scores : List (String × SegData)) (notes : Option String)
    (session_id : Option Nat) (h : reason = none ∨ reason = some "") :
    Api.flag_review st uid response_id reason scores notes session_id =
      (st, Api.FlagOutcome.missingData) := by
  apply Api.flag_review_of_falsy_reason
  rcases h with h | h <;> rw [h] <;> decide

/-- Witness for C8 at the demo store with an empty reason. -/
theorem flag_empty_reason_rejected_witness :
    Api.flag_review demoSt 7 (some 1) (some "") demoScores none (some 3) =
      (demoSt, Api.FlagOutcome.missingData) :=
  flag_empty_reason_rejected demoSt 7 (some 1) (some "") demoScores none
    (some 3) (Or.inr rfl)

/-- C9: a re-review request on an existing review by a reviewer who does
not own it fails with the authorization error, and one on a non-submitted
review it owns fails with the state error; in both cases the store —
queue item and review included — is returned unchanged. -/
theorem rereview_owner_and_state_errors (st : DBState) (uid rid : Nat)
    (reason : String) (review : Review) (hrid : rid ≠ 0) (hre : reason ≠ "")
    (hfind : getReview st rid = some review) :
    (review.reviewer_id ≠ uid →
      Api.request_rereview st uid (some rid) (some reason) =
        (st, Api.RereviewOutcome.notOwner)) ∧
    (review.reviewer_id = uid → review.status ≠ "submitted" →
      Api.request_rereview st uid (some rid) (some reason) =
        (st, Api.RereviewOutcome.notSubmitted)) :=
  ⟨fun hown => Api.request_rereview_not_owner st uid rid reason review
      hrid hre hfind hown,
   fun hown hstat => Api.request_rereview_not_submitted st uid rid reason
      review hrid hre hfind hown hstat⟩

/-- Witness for C9: reviewer 8 cannot reopen reviewer 7's submitted
review, and reviewer 7 cannot reopen their own draft review. -/
theorem rereview_owner_and_state_errors_witness :
    Api.request_rereview demoSt1 8 (some 1) (some "typo") =
      (demoSt1, Api.RereviewOutcome.notOwner) ∧
    Api.request_rereview demoDraftSt 7 (some 1) (some "typo") =
      (demoDraftSt, Api.RereviewOutcome.notSubmitted) :=
  ⟨(rereview_owner_and_state_errors demoSt1 8 1 "typo" demoReview1
      (by decide) (by decide) (by decide)).1 (by decide),
   (rereview_owner_and_state_errors demoDraftSt 7 1 "typo" demoDraftReview
      (by decide) (by decide) (by decide)).2 rfl (by decide)⟩

/-- C10: a suggestion that is present but equal to the empty string is
treated as absent (Python truthiness): the staged value equals the one
staged with no suggestion at all, namely the item's original stored
segment text for that segment id when the segment is mapped. -/
theorem empty_suggestion_falls_back
    (m : ProductionUpdateService.IntentMap) (segments : List Segment)
    (segId : String) (score : Option Int) :
    (ProductionUpdateService.stagedValue m segments segId
        { score := score, suggestion := some "" } =
      ProductionUpdateService.stagedValue m segments segId
        { score := score, suggestion := none }) ∧
    (∀ f, ProductionUpdateService.segMapGet m segId = some f →
      ProductionUpdateService.stagedValue m segments segId
          { score := score, suggestion := some "" } =
        (segments.find? (fun sg => sg.id == segId)).map
          (fun sg => (f, sg.text))) := by
  constructor
  · cases h : ProductionUpdateService.segMapGet m segId with
    | none =>
      rw [ProductionUpdateService.stagedValue_of_unmapped _ _ _ _ h,
          ProductionUpdateService.stagedValue_of_unmapped _ _ _ _ h]
    | some f =>
      rw [ProductionUpdateService.stagedValue_of_falsy _ _ _ _ f h
            (by show strTruthy (some "") = false; decide),
          ProductionUpdateService.stagedValue_of_falsy _ _ _ _ f h
            (by show strTruthy none = false; rfl)]
  · intro f hf
    exact ProductionUpdateService.stagedValue_of_falsy _ _ _ _ f hf
      (by show strTruthy (some "") = false; decide)

/-- Witness for C10 on the `interaction` mapping. -/
theorem empty_suggestion_falls_back_witness :
    ProductionUpdateService.stagedValue interactionMap demoItem.segments "S1"
        { score := some 5, suggestion := some "" } =
      some ("effect_s1", "orig S1") := by
  have h := (empty_suggestion_falls_back interactionMap demoItem.segments
    "S1" (some 5)).2 "effect_s1" (by decide)
  rw [h]
  decide

end RutabagaQA
